import Mathlib

/-!
Shallow embedding of zedproxy's credential/retry core.

Durations and instants are modelled as `Int` nanosecond counts, matching Go's
`time.Duration` (an `int64` of nanoseconds).  The zero `time.Time` sentinel
(`IsZero`) is modelled as the instant `0`.  Every division in the source acts
on non-negative operands, where Go's truncating division agrees with Lean's
integer division; the one machine-width-sensitive operation (the
`time.Duration(expiresIn) * time.Second` product in `fetchTokenFromURL`) is
modelled with explicit 64-bit wrap-around.  The pluggable refresh function is
modelled by the value it returns at its call site: either an error or a
`(token, ttl)` pair.  Errors are the Go `errors.New` message strings.
-/

namespace ZedProxy

/-- Go constant `time.Second` as a nanosecond count. -/
def nsPerSecond : Int := 1000000000

/-- Go constant `defaultExpiryBuffer = 30 * time.Second`. -/
def defaultExpiryBuffer : Int := 30 * nsPerSecond

/-- Embedding of Go `strings.TrimSpace`: drop leading whitespace, then drop
trailing whitespace. -/
def trimSpace (s : String) : String :=
  ⟨(s.data.dropWhile Char.isWhitespace).rdropWhile Char.isWhitespace⟩

/-- State of Go `tokenProvider`: the cached token, the `refreshAt` deadline
(0 models the zero `time.Time`, i.e. "never expires"), and whether a refresh
function is configured (`p.refresh != nil`). -/
structure TokenProvider where
  token : String
  refreshAt : Int
  hasRefresh : Bool
  deriving Repr, DecidableEq

/-- Result of one invocation of the pluggable refresh function
`func(ctx) (string, time.Duration, error)`: an error or a token plus ttl. -/
abbrev RefreshResult := Except String (String × Int)

/-- Buffer computation inside `tokenProvider.setWithExpiry`, for the
`expiresIn > 0` branch (source lines 65-74). -/
def computeBuffer (expiresIn : Int) : Int :=
  let buffer := defaultExpiryBuffer
  let buffer := if expiresIn / 10 > 0 ∧ expiresIn / 10 < buffer then expiresIn / 10 else buffer
  let buffer := if expiresIn < buffer then expiresIn / 2 else buffer
  let buffer := if expiresIn ≥ 2 * nsPerSecond ∧ buffer < nsPerSecond then nsPerSecond else buffer
  buffer

/-- Embedding of `tokenProvider.setWithExpiry`; `now` stands for the
`time.Now()` call inside it. -/
def setWithExpiry (p : TokenProvider) (token : String) (expiresIn now : Int) : TokenProvider :=
  if expiresIn > 0 then
    { p with token := token, refreshAt := now + expiresIn - computeBuffer expiresIn }
  else
    { p with token := token, refreshAt := 0 }

/-- Expiry-buffer computation as spec section 4.1 words it, for `ttl > 0`:
(a) start from a default buffer of 30 time units; (b) if `ttl/10` is positive
and smaller than `b`, set `b = ttl/10`; (c) if `ttl < b`, set `b = ttl/2`;
(d) if `ttl` is at least 2 time units and `b` is below 1 time unit, raise `b`
to 1 time unit.  Written from the spec's words, to be compared with
`computeBuffer`. -/
def specBuffer (ttl : Int) : Int :=
  let bA := 30 * nsPerSecond
  let bB := if 0 < ttl / 10 ∧ ttl / 10 < bA then ttl / 10 else bA
  let bC := if ttl < bB then ttl / 2 else bB
  let bD := if 2 * nsPerSecond ≤ ttl ∧ bC < nsPerSecond then nsPerSecond else bC
  bD

/-- The spec's `installWithTTL(token, ttl)` algorithm: for `ttl <= 0` store
the token and set `refreshAt` to the never-expires sentinel; otherwise set
`refreshAt = now + ttl - b` with `b` the four-step buffer.  Written from the
spec's words, to be compared with `setWithExpiry`. -/
def specInstallWithTTL (p : TokenProvider) (token : String) (ttl now : Int) : TokenProvider :=
  if ttl ≤ 0 then { p with token := token, refreshAt := 0 }
  else { p with token := token, refreshAt := now + ttl - specBuffer ttl }

/-- Embedding of `tokenProvider.ensureToken`.  `p?` is the (possibly nil)
receiver, `r` the refresh function's result at this call, `now` the current
time.  Returns the call's result, the provider state afterwards, and whether
the refresh function was invoked. -/
def ensureToken (p? : Option TokenProvider) (r : RefreshResult) (now : Int) :
    Except String String × Option TokenProvider × Bool :=
  match p? with
  | none => (.error "token provider is not configured", none, false)
  | some p =>
    if p.hasRefresh = false then
      if trimSpace p.token = "" then (.error "token is empty", some p, false)
      else (.ok p.token, some p, false)
    else
      if trimSpace p.token = "" ∨ (p.refreshAt ≠ 0 ∧ now > p.refreshAt) then
        match r with
        | .error e => (.error e, some p, true)
        | .ok (tok, ttl) =>
          let t := trimSpace tok
          if t = "" then (.error "token is empty", some p, true)
          else
            let p' := setWithExpiry p t ttl now
            (.ok p'.token, some p', true)
      else (.ok p.token, some p, false)

/-- Embedding of `tokenProvider.forceRefresh`, with the same conventions as
`ensureToken`. -/
def forceRefresh (p? : Option TokenProvider) (r : RefreshResult) (now : Int) :
    Except String String × Option TokenProvider × Bool :=
  match p? with
  | none => (.error "token refresh is not configured", none, false)
  | some p =>
    if p.hasRefresh = false then (.error "token refresh is not configured", some p, false)
    else
      match r with
      | .error e => (.error e, some p, true)
      | .ok (tok, ttl) =>
        let t := trimSpace tok
        if t = "" then (.error "token is empty", some p, true)
        else (.ok t, some (setWithExpiry p t ttl now), true)

/-- Kind of an outbound request body: Go `nil`, the `http.NoBody` sentinel, or
an actual non-empty body. -/
inductive BodyKind
  | nilBody
  | noBody
  | present
  deriving Repr, DecidableEq

/-- Abstraction of an outbound `*http.Request`: the two context markers
(`tokenRetryKey`, `tokenErrorKey`), the body kind, whether `GetBody` is
non-nil, and the Authorization header. -/
structure Request where
  retryMarker : Bool
  augmentError : Option String
  body : BodyKind
  hasGetBody : Bool
  authHeader : Option String
  deriving Repr, DecidableEq

/-- Abstraction of an `*http.Response`: only the status code matters to the
retry layer. -/
structure Response where
  statusCode : Nat
  deriving Repr, DecidableEq

/-- Embedding of `tokenErrorTransport.RoundTrip`: the call's result plus
whether the inner transport was invoked. -/
def errorRoundTrip (base : Request → Except String Response) (req : Request) :
    Except String Response × Bool :=
  match req.augmentError with
  | some e => (.error e, false)
  | none => (base req, true)

/-- The replayed request built by `tokenRetryTransport.RoundTrip` (source
lines 177-186): the clone carries the retry marker and the fresh bearer
token; the body is regenerated by `GetBody` when present, which keeps its
kind unchanged in this abstraction. -/
def retriedRequest (req : Request) (token : String) : Request :=
  { req with retryMarker := true, authHeader := some ("Bearer " ++ token) }

/-- Embedding of `tokenRetryTransport.RoundTrip`.  `base` is the inner
transport, `provider` the attached provider, `r` the refresh function's
result, `now` the current time.  Returns the call's result, the number of
dispatches through the inner transport, and whether `forceRefresh` was
invoked. -/
def retryRoundTrip (base : Request → Except String Response)
    (provider : Option TokenProvider) (r : RefreshResult) (now : Int) (req : Request) :
    Except String Response × Nat × Bool :=
  match base req with
  | .error e => (.error e, 1, false)
  | .ok resp =>
    if resp.statusCode ≠ 401 then (.ok resp, 1, false)
    else if req.retryMarker then (.ok resp, 1, false)
    else
      match provider with
      | none => (.ok resp, 1, false)
      | some p =>
        if p.hasRefresh = false then (.ok resp, 1, false)
        else if req.body = BodyKind.present ∧ req.hasGetBody = false then (.ok resp, 1, false)
        else
          match forceRefresh (some p) r now with
          | (.error e, _, _) => (.error e, 1, true)
          | (.ok token, _, _) => (base (retriedRequest req token), 2, true)

/-- Embedding of the `proxy.Director` closure installed by `newReverseProxy`
(source lines 250-260): on an `ensureToken` failure the error is stashed on
the request (the context value for `tokenErrorKey`), otherwise the bearer
header is set. -/
def director (p? : Option TokenProvider) (r : RefreshResult) (now : Int) (req : Request) :
    Request :=
  match (ensureToken p? r now).1 with
  | .error e => { req with augmentError := some e }
  | .ok tok => { req with authHeader := some ("Bearer " ++ tok) }

/-- JSON payload expected by `fetchTokenFromURL`; `expires_in` is an `int64`
in Go (the decoder rejects out-of-range values). -/
structure TokenResponsePayload where
  access_token : String
  expires_in : Int
  deriving Repr, DecidableEq

/-- Wrap an integer into the two's-complement `int64` range
(from -9223372036854775808 to 9223372036854775807), as Go's defined
signed-overflow behaviour does. -/
def wrap64 (x : Int) : Int :=
  (x + 9223372036854775808) % 18446744073709551616 - 9223372036854775808

deriving instance DecidableEq for Except

/-- Embedding of the response processing of `fetchTokenFromURL` (source lines
293-314), given the HTTP status code and the JSON decode result.  The
`time.Duration(payload.ExpiresIn) * time.Second` product is an `int64`
multiplication and wraps. -/
def fetchTokenFromURL (statusCode : Nat) (decoded : Except String TokenResponsePayload) :
    Except String (String × Int) :=
  if statusCode ≠ 200 then .error "token refresh returned non-200"
  else
    match decoded with
    | .error e => .error e
    | .ok payload =>
      if trimSpace payload.access_token = "" then .error "token refresh returned empty token"
      else if payload.expires_in ≤ 0 then .ok (payload.access_token, 0)
      else .ok (payload.access_token, wrap64 (payload.expires_in * nsPerSecond))

/-- Whether `now` has not passed the provider's deadline: the deadline is the
never-expires sentinel, or `now` is not strictly after it. -/
def beforeDeadline (p : TokenProvider) (now : Int) : Prop :=
  p.refreshAt = 0 ∨ ¬ now > p.refreshAt

/-- Thread a sequence of `ensureToken` calls (one per time in the list, with
a fixed refresh result) through a provider, counting refresh invocations. -/
def ensureSeq (p : TokenProvider) (r : RefreshResult) : List Int → TokenProvider × Nat
  | [] => (p, 0)
  | now :: rest =>
    let step := ensureToken (some p) r now
    let tail := ensureSeq (step.2.1.getD p) r rest
    (tail.1, (if step.2.2 then 1 else 0) + tail.2)

/-- Every call in the list happens before the deadline of the provider state
current at that call. -/
def SeqBefore (p : TokenProvider) (r : RefreshResult) : List Int → Prop
  | [] => True
  | now :: rest =>
    beforeDeadline p now ∧ SeqBefore ((ensureToken (some p) r now).2.1.getD p) r rest

/-! Helper lemmas about `trimSpace`. -/

theorem dropWhile_head_false {α : Type} (p : α → Bool) (l : List α) (a : α)
    (as : List α) (h : l.dropWhile p = a :: as) : p a = false := by
  induction l with
  | nil => simp [List.dropWhile] at h
  | cons x xs ih =>
    rw [List.dropWhile_cons] at h
    split at h
    · exact ih h
    · next hx =>
      cases h
      simpa using hx

theorem dropWhile_eq_self_of_leading {α : Type} (p : α → Bool) (l m : List α)
    (h : m <+: l.dropWhile p) : m.dropWhile p = m := by
  cases m with
  | nil => rfl
  | cons a as =>
    obtain ⟨t, ht⟩ := h
    have ha : p a = false :=
      dropWhile_head_false p l a (as ++ t) (by rw [← ht]; rfl)
    rw [List.dropWhile_cons, ha]
    simp

theorem trimSpace_idem (s : String) : trimSpace (trimSpace s) = trimSpace s := by
  unfold trimSpace
  show (⟨((((s.data.dropWhile _).rdropWhile _).dropWhile _).rdropWhile _)⟩ : String) = _
  rw [dropWhile_eq_self_of_leading _ s.data _ (List.rdropWhile_prefix _ _),
    List.rdropWhile_idempotent]

/-! Helper lemmas about the provider's cache-hit path. -/

theorem setWithExpiry_token (p : TokenProvider) (token : String) (expiresIn now : Int) :
    (setWithExpiry p token expiresIn now).token = token := by
  unfold setWithExpiry
  split <;> rfl

theorem ensure_hit (p : TokenProvider) (r : RefreshResult) (now : Int)
    (h1 : trimSpace p.token ≠ "") (h2 : beforeDeadline p now) :
    ensureToken (some p) r now = (.ok p.token, some p, false) := by
  unfold ensureToken
  rcases hb : p.hasRefresh with _ | _
  · simp [hb, h1]
  · have hcond : ¬ (trimSpace p.token = "" ∨ (p.refreshAt ≠ 0 ∧ now > p.refreshAt)) := by
      rintro (hbl | ⟨hne, hgt⟩)
      · exact h1 hbl
      · rcases h2 with h | h
        · exact hne h
        · exact h hgt
    simp [hb, hcond]

theorem ensureSeq_hit (p : TokenProvider) (r : RefreshResult) (ts : List Int)
    (h1 : trimSpace p.token ≠ "") (h2 : ∀ t ∈ ts, beforeDeadline p t) :
    ensureSeq p r ts = (p, 0) := by
  induction ts with
  | nil => rfl
  | cons t ts ih =>
    have hstep := ensure_hit p r t h1 (h2 t (List.mem_cons_self t ts))
    have htail := ih (fun u hu => h2 u (List.mem_cons_of_mem t hu))
    simp [ensureSeq, hstep, htail]

theorem ensureSeq_hit_of_seqBefore (p : TokenProvider) (r : RefreshResult) (ts : List Int)
    (h1 : trimSpace p.token ≠ "") (h2 : SeqBefore p r ts) :
    ensureSeq p r ts = (p, 0) := by
  induction ts with
  | nil => rfl
  | cons t ts ih =>
    simp only [SeqBefore] at h2
    obtain ⟨hbd, h2'⟩ := h2
    have hstep := ensure_hit p r t h1 hbd
    rw [hstep] at h2'
    simp only [Option.getD_some] at h2'
    simp [ensureSeq, hstep, ih h2']

theorem ensureSeq_le_one (r : RefreshResult) (tok : String) (ttl : Int)
    (hr : r = .ok (tok, ttl)) (htr : trimSpace tok = tok) (hne : tok ≠ "")
    (ts : List Int) (p : TokenProvider) (hsb : SeqBefore p r ts) :
    (ensureSeq p r ts).2 ≤ 1 := by
  induction ts generalizing p with
  | nil => simp [ensureSeq]
  | cons t ts ih =>
    simp only [SeqBefore] at hsb
    obtain ⟨hbd, hsb'⟩ := hsb
    by_cases hblank : trimSpace p.token = ""
    · rcases hhr : p.hasRefresh with _ | _
      · have hstep : ensureToken (some p) r t = (.error "token is empty", some p, false) := by
          unfold ensureToken
          simp [hhr, hblank]
        rw [hstep] at hsb'
        simp only [Option.getD_some] at hsb'
        simp [ensureSeq, hstep]
        exact ih p hsb'
      · have hstep : ensureToken (some p) r t =
            (.ok (setWithExpiry p tok ttl t).token, some (setWithExpiry p tok ttl t), true) := by
          unfold ensureToken
          simp [hhr, hblank, hr, htr, hne]
        rw [hstep] at hsb'
        simp only [Option.getD_some] at hsb'
        have hfresh : trimSpace (setWithExpiry p tok ttl t).token ≠ "" := by
          rw [setWithExpiry_token, htr]
          exact hne
        have htail := ensureSeq_hit_of_seqBefore _ r ts hfresh hsb'
        simp [ensureSeq, hstep, htail]
    · have hstep := ensure_hit p r t (by exact hblank) hbd
      rw [hstep] at hsb'
      simp only [Option.getD_some] at hsb'
      have htail := ensureSeq_hit_of_seqBefore p r ts (by exact hblank) hsb'
      simp [ensureSeq, hstep, htail]

theorem computeBuffer_eq_specBuffer (ttl : Int) : computeBuffer ttl = specBuffer ttl := rfl

/-- C3: the expiry-buffer installation follows the spec's algorithm exactly:
for ttl less than or equal to 0 the token is stored and refreshAt is set to the
never-expires sentinel; otherwise the buffer b starts at 30 time units, is
lowered to ttl/10 when ttl/10 is positive and smaller than b, lowered to ttl/2
when ttl is below b, raised to 1 unit when ttl is at least 2 units and b is
below 1 unit, and refreshAt is set to now + ttl - b. -/
theorem setWithExpiry_matches_spec (p : TokenProvider) (token : String) (ttl now : Int) :
    setWithExpiry p token ttl now = specInstallWithTTL p token ttl now := by
  unfold setWithExpiry specInstallWithTTL
  rcases lt_or_le 0 ttl with h | h
  · rw [if_pos h, if_neg (by omega), computeBuffer_eq_specBuffer]
  · rw [if_neg (by omega), if_pos (by omega)]

/-- C8 counterexample: at ttl = 1 second (which lies in (0, 2 seconds) and has
ttl/10 smaller than 30 seconds), the code's buffer is ttl/10, not ttl/2 as the
claim states. -/
theorem buffer_short_ttl_counterexample :
    (0 : Int) < 1000000000 ∧ (1000000000 : Int) < 2 * nsPerSecond ∧
    (1000000000 : Int) / 10 < 30 * nsPerSecond ∧
    computeBuffer 1000000000 ≠ 1000000000 / 2 ∧
    computeBuffer 1000000000 = 1000000000 / 10 := by decide

/-- C8 (amended): for every ttl strictly between 0 and 2 seconds, the computed
expiry buffer equals ttl/2 when ttl/10 truncates to 0 (ttl below 10
nanoseconds) and equals ttl/10 otherwise; in particular it is deterministic
for a given ttl. -/
theorem buffer_short_ttl (ttl : Int) (h1 : 0 < ttl) (h2 : ttl < 2 * nsPerSecond) :
    computeBuffer ttl = if ttl / 10 = 0 then ttl / 2 else ttl / 10 := by
  have h2' : ttl < 2 * 1000000000 := by
    simpa [nsPerSecond] using h2
  simp only [computeBuffer, defaultExpiryBuffer, nsPerSecond]
  split_ifs <;> omega

/-- Witness for C8 (amended) at ttl = 1.5 seconds. -/
theorem buffer_short_ttl_witness : computeBuffer 1500000000 = 150000000 := by
  rw [buffer_short_ttl 1500000000 (by decide) (by decide)]
  decide

/-- C7 counterexample: a provider with no refresh function and a blank cached
token makes ensure fail with the EmptyCredential error string, which is
neither of the code's NotConfigured error strings. -/
theorem ensure_not_configured_counterexample :
    (ensureToken (some ⟨"", 0, false⟩) (.ok ("tok", 0)) 0).1 = .error "token is empty" ∧
    ("token is empty" : String) ≠ "token provider is not configured" ∧
    ("token is empty" : String) ≠ "token refresh is not configured" := by decide

/-- C7 (amended): ensure fails with the NotConfigured error exactly when the
provider is nil; when the provider exists but has no refresh function and no
non-blank cached token, it fails with the EmptyCredential error instead. -/
theorem ensure_not_configured (p : TokenProvider) (r : RefreshResult) (now : Int) :
    (ensureToken none r now).1 = .error "token provider is not configured" ∧
    (p.hasRefresh = false → trimSpace p.token = "" →
      (ensureToken (some p) r now).1 = .error "token is empty") := by
  constructor
  · rfl
  · intro hb hbl
    unfold ensureToken
    simp [hb, hbl]

/-- Witness for C7 (amended). -/
theorem ensure_not_configured_witness :
    (ensureToken (some ⟨" ", 0, false⟩) (.error "boom") 7).1 = .error "token is empty" :=
  (ensure_not_configured ⟨" ", 0, false⟩ (.error "boom") 7).2 rfl (by decide)

/-- C9 counterexample: with a 200 status and payload expires_in = 10^10
seconds, the int64 product expires_in * 10^9 wraps and the returned ttl is a
negative duration, not 10^10 seconds. -/
theorem fetch_token_overflow_counterexample :
    fetchTokenFromURL 200 (.ok ⟨"tok", 10000000000⟩) =
      .ok ("tok", -8446744073709551616) ∧
    (-8446744073709551616 : Int) ≠ 10000000000 * nsPerSecond := by decide

/-- C9 (amended): the remote fetcher fails with the RefreshHTTPError string on
any non-200 status, fails with the EmptyCredential string when the parsed
access_token is blank after trimming, returns a never-expires ttl (zero)
whenever expires_in is at most 0, and otherwise returns the token with
expires_in interpreted as seconds provided the nanosecond product does not
overflow int64 (expires_in at most 9223372036). -/
theorem fetch_token_from_url_behavior (statusCode : Nat)
    (d : Except String TokenResponsePayload) (payload : TokenResponsePayload) :
    (statusCode ≠ 200 → fetchTokenFromURL statusCode d = .error "token refresh returned non-200") ∧
    (statusCode = 200 → d = .ok payload → trimSpace payload.access_token = "" →
      fetchTokenFromURL statusCode d = .error "token refresh returned empty token") ∧
    (statusCode = 200 → d = .ok payload → trimSpace payload.access_token ≠ "" →
      payload.expires_in ≤ 0 →
      fetchTokenFromURL statusCode d = .ok (payload.access_token, 0)) ∧
    (statusCode = 200 → d = .ok payload → trimSpace payload.access_token ≠ "" →
      0 < payload.expires_in → payload.expires_in ≤ 9223372036 →
      fetchTokenFromURL statusCode d = .ok (payload.access_token, payload.expires_in * nsPerSecond)) := by
  refine ⟨fun hs => ?_, fun hs hd hbl => ?_, fun hs hd hbl hle => ?_, fun hs hd hbl hpos hrange => ?_⟩
  · unfold fetchTokenFromURL
    rw [if_pos hs]
  · unfold fetchTokenFromURL
    simp [hs, hd, hbl]
  · unfold fetchTokenFromURL
    simp [hs, hd, hbl, hle]
  · unfold fetchTokenFromURL
    have hne : ¬ payload.expires_in ≤ 0 := by omega
    have hwrap : wrap64 (payload.expires_in * nsPerSecond) = payload.expires_in * nsPerSecond := by
      simp only [wrap64, nsPerSecond]
      omega
    simp [hs, hd, hbl, hne, hwrap]

/-- Witness for C9 (amended) at a 3600-second token. -/
theorem fetch_token_from_url_witness :
    fetchTokenFromURL 200 (.ok ⟨"tok", 3600⟩) = .ok ("tok", 3600 * nsPerSecond) :=
  (fetch_token_from_url_behavior 200 (.ok ⟨"tok", 3600⟩) ⟨"tok", 3600⟩).2.2.2 rfl rfl
    (by decide) (by decide) (by decide)

/-- C5: for every provider whose cached token is non-blank and whose refreshAt
is either the never-expires sentinel or not strictly earlier than the current
time, a call to ensure returns the cached token without invoking the refresh
function and leaves the state unchanged; hence repeated ensure calls before
refreshAt invoke the refresh function at most once in total. -/
theorem ensure_cache_hit_single_refresh (p : TokenProvider) (r : RefreshResult)
    (now : Int) (times : List Int) :
    (trimSpace p.token ≠ "" → beforeDeadline p now →
      ensureToken (some p) r now = (.ok p.token, some p, false)) ∧
    (trimSpace p.token ≠ "" → (∀ t ∈ times, beforeDeadline p t) →
      ensureSeq p r times = (p, 0)) ∧
    (∀ tok ttl, r = .ok (tok, ttl) → trimSpace tok = tok → tok ≠ "" →
      SeqBefore p r times → (ensureSeq p r times).2 ≤ 1) :=
  ⟨fun h1 h2 => ensure_hit p r now h1 h2,
   fun h1 h2 => ensureSeq_hit p r times h1 h2,
   fun tok ttl hr htr hne hsb => ensureSeq_le_one r tok ttl hr htr hne times p hsb⟩

/-- Witness for C5 at a warm cache with a sentinel deadline. -/
theorem ensure_cache_hit_single_refresh_witness :
    ensureToken (some ⟨"tok", 0, true⟩) (.ok ("new", 0)) 5 =
      (.ok "tok", some ⟨"tok", 0, true⟩, false) :=
  (ensure_cache_hit_single_refresh ⟨"tok", 0, true⟩ (.ok ("new", 0)) 5 []).1
    (by decide) (Or.inl rfl)

/-- Characterization of a successful `ensureToken` call: either a cache hit
returning the stored token unchanged, or a refresh that installed the trimmed
refresh result. -/
theorem ensure_ok_cases (p : TokenProvider) (r : RefreshResult) (now : Int)
    (tok : String) (q : TokenProvider) (inv : Bool)
    (h : ensureToken (some p) r now = (.ok tok, some q, inv)) :
    (tok = p.token ∧ q = p ∧ trimSpace p.token ≠ "") ∨
    (∃ t0 ttl, r = .ok (t0, ttl) ∧ tok = trimSpace t0 ∧ trimSpace t0 ≠ "" ∧
      q = setWithExpiry p (trimSpace t0) ttl now) := by
  rcases hb : p.hasRefresh with _ | _
  · by_cases hbl : trimSpace p.token = ""
    · simp [ensureToken, hb, hbl] at h
    · simp [ensureToken, hb, hbl] at h
      exact Or.inl ⟨h.1.symm, h.2.1.symm, hbl⟩
  · by_cases hcond : trimSpace p.token = "" ∨ (p.refreshAt ≠ 0 ∧ now > p.refreshAt)
    · rcases r with e | ⟨t0, ttl⟩
      · simp [ensureToken, hb, hcond] at h
      · by_cases hbl : trimSpace t0 = ""
        · simp [ensureToken, hb, hcond, hbl] at h
        · simp [ensureToken, hb, hcond, hbl] at h
          refine Or.inr ⟨t0, ttl, rfl, ?_, hbl, h.2.1.symm⟩
          rw [← h.1, setWithExpiry_token]
    · simp [ensureToken, hb, hcond] at h
      exact Or.inl ⟨h.1.symm, h.2.1.symm, fun hbl => hcond (Or.inl hbl)⟩

/-- Characterization of a successful `forceRefresh` call: the refresh result
was non-blank after trimming and was installed. -/
theorem forceRefresh_ok_cases (p : TokenProvider) (r : RefreshResult) (now : Int)
    (tok : String) (q : TokenProvider) (inv : Bool)
    (h : forceRefresh (some p) r now = (.ok tok, some q, inv)) :
    ∃ t0 ttl, r = .ok (t0, ttl) ∧ tok = trimSpace t0 ∧ trimSpace t0 ≠ "" ∧
      q = setWithExpiry p (trimSpace t0) ttl now := by
  rcases hb : p.hasRefresh with _ | _
  · simp [forceRefresh, hb] at h
  · rcases r with e | ⟨t0, ttl⟩
    · simp [forceRefresh, hb] at h
    · by_cases hbl : trimSpace t0 = ""
      · simp [forceRefresh, hb, hbl] at h
      · simp [forceRefresh, hb, hbl] at h
        exact ⟨t0, ttl, rfl, h.1.symm, hbl, h.2.1.symm⟩

/-- C6: after every successful return of ensure (from a state whose stored
token is already trimmed, as every state the program constructs is) or of
forceRefresh, the returned value and the stored token coincide, are non-empty
and equal their own whitespace-trimmed form; a blank refresh result makes
either call fail with the EmptyCredential error rather than install a blank
token. -/
theorem token_nonblank_after_success (p : TokenProvider) (r : RefreshResult) (now : Int) :
    (∀ tok q inv, trimSpace p.token = p.token →
      ensureToken (some p) r now = (.ok tok, some q, inv) →
      tok ≠ "" ∧ trimSpace tok = tok ∧ q.token = tok) ∧
    (∀ tok q inv, forceRefresh (some p) r now = (.ok tok, some q, inv) →
      tok ≠ "" ∧ trimSpace tok = tok ∧ q.token = tok) ∧
    (∀ tok ttl, r = .ok (tok, ttl) → trimSpace tok = "" → p.hasRefresh = true →
      (trimSpace p.token = "" → (ensureToken (some p) r now).1 = .error "token is empty") ∧
      (forceRefresh (some p) r now).1 = .error "token is empty") := by
  refine ⟨?_, ?_, ?_⟩
  · intro tok q inv htrim hsucc
    rcases ensure_ok_cases p r now tok q inv hsucc with ⟨h1, h2, h3⟩ | ⟨t0, ttl, hr, h1, h2, h3⟩
    · refine ⟨fun he => h3 (by rw [htrim, ← h1, he]), ?_, ?_⟩
      · rw [h1]; exact htrim
      · rw [h2, h1]
    · subst h1; subst h3
      exact ⟨h2, trimSpace_idem t0, setWithExpiry_token p (trimSpace t0) ttl now⟩
  · intro tok q inv hsucc
    rcases forceRefresh_ok_cases p r now tok q inv hsucc with ⟨t0, ttl, hr, h1, h2, h3⟩
    subst h1; subst h3
    exact ⟨h2, trimSpace_idem t0, setWithExpiry_token p (trimSpace t0) ttl now⟩
  · intro tok ttl hr hbl hb
    subst hr
    constructor
    · intro hpbl
      unfold ensureToken
      simp [hb, hpbl, hbl]
    · unfold forceRefresh
      simp [hb, hbl]

/-- Witness for C6: a successful refresh through ensure installs a non-blank
trimmed token. -/
theorem token_nonblank_after_success_witness :
    ("new" : String) ≠ "" ∧ trimSpace "new" = "new" ∧
      (TokenProvider.mk "new" 0 true).token = "new" :=
  (token_nonblank_after_success ⟨"", 0, true⟩ (.ok ("new", 0)) 0).1 "new" ⟨"new", 0, true⟩
    true (by decide) (by decide)

/-- C2: a request whose context carries an augmentation error (as recorded by
the request augmenter when ensure fails) makes the error-propagation
transport fail immediately with exactly that error, and the inner transport
is never invoked. -/
theorem augmentation_error_fails_immediately (base : Request → Except String Response)
    (p? : Option TokenProvider) (r : RefreshResult) (now : Int) (req : Request) (e : String) :
    (req.augmentError = some e → errorRoundTrip base req = (.error e, false)) ∧
    ((ensureToken p? r now).1 = .error e →
      (director p? r now req).augmentError = some e ∧
      errorRoundTrip base (director p? r now req) = (.error e, false)) := by
  constructor
  · intro h
    unfold errorRoundTrip
    rw [h]
  · intro h
    have hd : director p? r now req = { req with augmentError := some e } := by
      unfold director
      rw [h]
    rw [hd]
    exact ⟨rfl, rfl⟩

/-- Witness for C2: a nil provider makes ensure fail, the director stashes the
error, and the transport fails with it without dispatching. -/
theorem augmentation_error_fails_immediately_witness :
    errorRoundTrip (fun _ => .ok ⟨200⟩)
        (director none (.ok ("t", 0)) 0 ⟨false, none, BodyKind.nilBody, false, none⟩) =
      (.error "token provider is not configured", false) :=
  ((augmentation_error_fails_immediately (fun _ => .ok ⟨200⟩) none (.ok ("t", 0)) 0
      ⟨false, none, BodyKind.nilBody, false, none⟩ "token provider is not configured").2 rfl).2

/-- C4: an authorization-rejected request whose body is present (neither nil
nor the empty-body sentinel) and which has no body-regeneration function is
never replayed: no forced refresh is performed and the rejection response is
returned unchanged. -/
theorem nonreplayable_body_rejection_verbatim (base : Request → Except String Response)
    (provider : Option TokenProvider) (r : RefreshResult) (now : Int) (req : Request)
    (resp : Response) (hbody : req.body = BodyKind.present) (hget : req.hasGetBody = false)
    (hbase : base req = .ok resp) (hstatus : resp.statusCode = 401) :
    retryRoundTrip base provider r now req = (.ok resp, 1, false) := by
  unfold retryRoundTrip
  rw [hbase]
  rcases hm : req.retryMarker with _ | _
  · rcases provider with _ | p
    · simp [hstatus, hm]
    · rcases hb : p.hasRefresh with _ | _
      · simp [hstatus, hm, hb]
      · simp [hstatus, hm, hb, hbody, hget]
  · simp [hstatus, hm]

/-- Witness for C4: a 401 on a request with a present body and no GetBody is
returned verbatim with a single dispatch and no refresh. -/
theorem nonreplayable_body_rejection_verbatim_witness :
    retryRoundTrip (fun _ => .ok ⟨401⟩) (some ⟨"old", 0, true⟩) (.ok ("new", 0)) 0
        ⟨false, none, BodyKind.present, false, none⟩ = (.ok ⟨401⟩, 1, false) :=
  nonreplayable_body_rejection_verbatim (fun _ => .ok ⟨401⟩) (some ⟨"old", 0, true⟩)
    (.ok ("new", 0)) 0 ⟨false, none, BodyKind.present, false, none⟩ ⟨401⟩ rfl rfl rfl rfl

/-- C1: the retry transport performs at most one replay per original request;
a request already carrying the retry marker is returned exactly as the inner
transport answers it, with one dispatch and no forced refresh, and the replay
of an eligible rejected request is dispatched exactly once, carries the retry
marker, and its response is returned verbatim. -/
theorem retry_at_most_one_replay (base : Request → Except String Response)
    (provider : Option TokenProvider) (r : RefreshResult) (now : Int) (req : Request) :
    (retryRoundTrip base provider r now req).2.1 ≤ 2 ∧
    (req.retryMarker = true → retryRoundTrip base provider r now req = (base req, 1, false)) ∧
    (∀ tok, (retriedRequest req tok).retryMarker = true) ∧
    (∀ p tok resp, provider = some p → req.retryMarker = false → p.hasRefresh = true →
      ¬ (req.body = BodyKind.present ∧ req.hasGetBody = false) →
      base req = .ok resp → resp.statusCode = 401 →
      (forceRefresh (some p) r now).1 = .ok tok →
      retryRoundTrip base provider r now req = (base (retriedRequest req tok), 2, true)) := by
  refine ⟨?_, ?_, fun tok => rfl, ?_⟩
  · unfold retryRoundTrip
    rcases hbase : base req with e | resp
    · simp
    · by_cases h1 : resp.statusCode ≠ 401
      · simp [h1]
      · rcases hm : req.retryMarker with _ | _
        · rcases provider with _ | p
          · simp [h1, hm]
          · rcases hb : p.hasRefresh with _ | _
            · simp [h1, hm, hb]
            · by_cases hbody : req.body = BodyKind.present ∧ req.hasGetBody = false
              · simp [h1, hm, hb, hbody]
              · rcases hfr : forceRefresh (some p) r now with ⟨res, st, inv⟩
                rcases res with e2 | tok <;> simp [h1, hm, hb, hbody, hfr]
        · simp [h1, hm]
  · intro hm
    unfold retryRoundTrip
    rcases hbase : base req with e | resp
    · simp
    · by_cases h1 : resp.statusCode ≠ 401
      · simp [h1]
      · simp [h1, hm]
  · intro p tok resp hprov hmark hrefresh hbody hbase hstatus hfr
    subst hprov
    unfold retryRoundTrip
    rw [hbase]
    rcases hfr2 : forceRefresh (some p) r now with ⟨res, st, inv⟩
    rw [hfr2] at hfr
    simp only [] at hfr
    subst hfr
    simp [hstatus, hmark, hrefresh, hbody, hfr2]

/-- Witness for C1: an eligible rejected request is replayed once and the
second response (another 401 here) is returned verbatim. -/
theorem retry_at_most_one_replay_witness :
    retryRoundTrip (fun _ => .ok ⟨401⟩) (some ⟨"old", 0, true⟩) (.ok ("new", 0)) 0
        ⟨false, none, BodyKind.nilBody, false, none⟩ = (.ok ⟨401⟩, 2, true) :=
  (retry_at_most_one_replay (fun _ => .ok ⟨401⟩) (some ⟨"old", 0, true⟩) (.ok ("new", 0)) 0
      ⟨false, none, BodyKind.nilBody, false, none⟩).2.2.2 ⟨"old", 0, true⟩ "new" ⟨401⟩
    rfl rfl rfl (by decide) rfl rfl rfl

/-- C10: the retry transport treats exactly status 401 as an authorization
rejection: any other status is returned unchanged with one dispatch and no
forced refresh, while an eligible 401 does trigger a forced refresh. -/
theorem retry_only_401 (base : Request → Except String Response)
    (provider : Option TokenProvider) (r : RefreshResult) (now : Int) (req : Request) :
    (∀ resp, base req = .ok resp → resp.statusCode ≠ 401 →
      retryRoundTrip base provider r now req = (.ok resp, 1, false)) ∧
    (∀ resp p, base req = .ok resp → resp.statusCode = 401 → provider = some p →
      req.retryMarker = false → p.hasRefresh = true →
      ¬ (req.body = BodyKind.present ∧ req.hasGetBody = false) →
      (retryRoundTrip base provider r now req).2.2 = true) := by
  constructor
  · intro resp hbase hstatus
    unfold retryRoundTrip
    rw [hbase]
    simp [hstatus]
  · intro resp p hbase hstatus hprov hmark hrefresh hbody
    subst hprov
    unfold retryRoundTrip
    rw [hbase]
    rcases hfr : forceRefresh (some p) r now with ⟨res, st, inv⟩
    rcases res with e | tok <;> simp [hstatus, hmark, hrefresh, hbody, hfr]

/-- Witness for C10: a 403 rejection is returned unchanged with no refresh. -/
theorem retry_only_401_witness :
    retryRoundTrip (fun _ => .ok ⟨403⟩) none (.ok ("t", 0)) 0
        ⟨false, none, BodyKind.nilBody, false, none⟩ = (.ok ⟨403⟩, 1, false) :=
  (retry_only_401 (fun _ => .ok ⟨403⟩) none (.ok ("t", 0)) 0
      ⟨false, none, BodyKind.nilBody, false, none⟩).1 ⟨403⟩ rfl (by decide)

end ZedProxy
